import Mathlib

/-!
A shallow embedding of the go-crud user service
(repository layer `internal/repository/user_repository.go`,
schema `internal/database/connection.go`,
service layer `internal/services`, HTTP handlers `internal/handlers`).

Modelling conventions:
* Go `error` values are modelled as their message strings, because the
  handlers dispatch on `err.Error() == "user not found"`; `fmt.Errorf`
  with `%w` wrapping is string concatenation of the prefix and the
  wrapped message.
* A Go `(T, error)` pair where exactly one side is set (the convention
  every implementation in this repository follows) is `Except String T`.
* `time.Time` values and Postgres `CURRENT_TIMESTAMP` are abstract
  integer timestamps; a database state carries the current timestamp in
  its `now` field (Postgres evaluates `CURRENT_TIMESTAMP` once per
  statement).
* Go `int` / `int64` are `Int` (overflow is immaterial to the
  properties below, and ids/ages/pagination stay tiny).
* Go string primitives (`strings.TrimSpace`, `strings.Contains`,
  `strconv.Atoi`, `len`) are modelled structurally over the character
  list of the string, so that they compute by kernel reduction; `len`
  counts characters, which agrees with Go byte length on ASCII data.
* The Postgres table `users` from `RunMigrations` is a list of rows
  plus the next `SERIAL` id; its `UNIQUE` email constraint, its
  `CHECK (age > 0 AND age < 150)` constraint, and the
  `update_users_updated_at` trigger are applied by the modelled
  INSERT/UPDATE statements.  `ORDER BY created_at DESC` is modelled by
  sorting with a sort on the `created_at` key.
-/

namespace GoCrud

/-! ### Models (`internal/models/user.go`) -/

/-- `models.User`. -/
structure User where
  ID : Int
  Name : String
  Email : String
  Age : Int
  CreatedAt : Int
  UpdatedAt : Int
deriving Repr, DecidableEq

/-- `models.CreateUserRequest`. -/
structure CreateUserRequest where
  Name : String
  Email : String
  Age : Int
deriving Repr, DecidableEq

/-- `models.UpdateUserRequest` (empty string / zero integer mean "not provided"). -/
structure UpdateUserRequest where
  Name : String
  Email : String
  Age : Int
deriving Repr, DecidableEq

/-- Result of a Go call returning `(T, error)`. -/
abbrev GoResult (α : Type) := Except String α

/-! ### Go string primitives, modelled structurally -/

/-- `strings.TrimSpace` (trim leading and trailing whitespace). -/
def trimSpace (s : String) : String :=
  String.mk (((s.data.dropWhile Char.isWhitespace).reverse.dropWhile Char.isWhitespace).reverse)

/-- `strings.Contains(s, c)` for a one-character pattern `c`. -/
def containsChar (s : String) (c : Char) : Bool :=
  s.data.any (fun d => d = c)

/-- Go `len(s)` (byte length; equal to character count on ASCII data). -/
def strLen (s : String) : Int :=
  (s.data.length : Int)

/-- Digit-run parser underlying `strconv.Atoi`: all characters must be
decimal digits and at least one must be present. -/
def parseDigits (cs : List Char) : Option Nat :=
  if cs = [] then none
  else if cs.all (fun c => c.isDigit) then
    some (cs.foldl (fun acc c => acc * 10 + (c.toNat - 48)) 0)
  else none

/-- `strconv.Atoi`: optional sign followed by a non-empty digit run. -/
def Atoi (s : String) : Option Int :=
  match s.data with
  | [] => none
  | c :: cs =>
    if c = ('-') then (parseDigits cs).map (fun n => -(n : Int))
    else if c = ('+') then (parseDigits cs).map (fun n => (n : Int))
    else (parseDigits (c :: cs)).map (fun n => (n : Int))

/-! ### Error message strings used by the Go code -/

def errUserNotFound : String := "user not found"

def errInvalidUserID : String := "invalid user ID"

def errNameRequired : String := "name is required"

def errNameLength : String := "name must be between 2 and 100 characters"

def errEmailRequired : String := "email is required"

def errEmailFormat : String := "invalid email format"

def errAgeRange : String := "age must be between 1 and 150"

/-- `fmt.Errorf("user with email %s already exists", email)`. -/
def errEmailExists (email : String) : String :=
  "user with email " ++ email ++ " already exists"

/-- Postgres message for a violated unique constraint on email,
surfaced by the repository as a generic persistence error. -/
def errUniqueViolation : String := "pq: duplicate key value violates unique constraint"

/-- Postgres message for a violated `CHECK (age > 0 AND age < 150)`
constraint, surfaced by the repository as a generic persistence error. -/
def errCheckViolation : String := "pq: new row for relation users violates check constraint"

/-! ### The database (`internal/database/connection.go`, `RunMigrations`) -/

/-- The Postgres `users` table together with the ambient timestamp:
`rows` is the table contents, `nextId` the next value of the `SERIAL`
primary-key sequence, `now` the value of `CURRENT_TIMESTAMP`. -/
structure DBState where
  rows : List User
  nextId : Int
  now : Int
deriving Repr, DecidableEq

/-- The schema constraint `CHECK (age > 0 AND age < 150)` from
`RunMigrations` in `internal/database/connection.go`. -/
def ageCheck (age : Int) : Bool :=
  age > 0 && age < 150

/-- `ORDER BY created_at DESC` (most recent first). -/
def orderByCreatedAtDesc (rows : List User) : List User :=
  List.insertionSort (fun a b => b.CreatedAt ≤ a.CreatedAt) rows

/-- `LIMIT $1 OFFSET $2` applied to the ordered rows. -/
def selectUsersPage (st : DBState) (limit offset : Int) : List User :=
  ((orderByCreatedAtDesc st.rows).drop offset.toNat).take limit.toNat

/-! ### Repository (`internal/repository/user_repository.go`),
one state-passing function per method -/

/-- The field overlay performed inside `userRepository.Update`: each
provided field (non-empty string / non-zero integer) replaces the
current value, then `updated_at` is stamped with the current time. -/
def applyUpdate (current : User) (req : UpdateUserRequest) (now : Int) : User :=
  let current := if req.Name ≠ ("") then { current with Name := req.Name } else current
  let current := if req.Email ≠ ("") then { current with Email := req.Email } else current
  let current := if req.Age ≠ 0 then { current with Age := req.Age } else current
  { current with UpdatedAt := now }

namespace userRepository

/-- `userRepository.Create`: INSERT one row RETURNING the populated
row; the database applies the unique-email and age-check constraints
and assigns id and both timestamps. -/
def Create (st : DBState) (req : CreateUserRequest) : GoResult User × DBState :=
  if st.rows.any (fun u => u.Email = req.Email) then
    (.error ("failed to create user: " ++ errUniqueViolation), st)
  else if !(ageCheck req.Age) then
    (.error ("failed to create user: " ++ errCheckViolation), st)
  else
    let u : User := ⟨st.nextId, req.Name, req.Email, req.Age, st.now, st.now⟩
    (.ok u, { st with rows := st.rows ++ [u], nextId := st.nextId + 1 })

/-- `userRepository.GetByID`: SELECT by exact id; `sql.ErrNoRows`
becomes the distinct message of `errUserNotFound`. -/
def GetByID (st : DBState) (id : Int) : GoResult User × DBState :=
  match st.rows.find? (fun u => u.ID = id) with
  | some u => (.ok u, st)
  | none => (.error errUserNotFound, st)

/-- `userRepository.GetAll`: SELECT ordered by `created_at DESC` with
LIMIT/OFFSET; an empty result set is a success, not an error. -/
def GetAll (st : DBState) (limit offset : Int) : GoResult (List User) × DBState :=
  (.ok (selectUsersPage st limit offset), st)

/-- `userRepository.Update`: read-modify-write.  Fetch the current
row, overlay only the provided fields (empty string / zero integer
mean "not provided"), stamp `updated_at`, then UPDATE RETURNING; the
database applies the unique and check constraints and the
`update_users_updated_at` trigger refreshes `updated_at`. -/
def Update (st : DBState) (id : Int) (req : UpdateUserRequest) : GoResult User × DBState :=
  match (GetByID st id).1 with
  | .error e => (.error e, st)
  | .ok current =>
    let current := applyUpdate current req st.now
    if st.rows.any (fun u => u.Email = current.Email && u.ID ≠ id) then
      (.error ("failed to update user: " ++ errUniqueViolation), st)
    else if !(ageCheck current.Age) then
      (.error ("failed to update user: " ++ errCheckViolation), st)
    else
      (.ok current, { st with rows := st.rows.map (fun u => if u.ID = id then current else u) })

/-- `userRepository.Delete`: existence check via `GetByID`, then
DELETE; zero affected rows would also report `errUserNotFound`. -/
def Delete (st : DBState) (id : Int) : GoResult Unit × DBState :=
  match (GetByID st id).1 with
  | .error e => (.error e, st)
  | .ok _ =>
    let remaining := st.rows.filter (fun u => u.ID ≠ id)
    let rowsAffected := st.rows.length - remaining.length
    if rowsAffected = 0 then (.error errUserNotFound, { st with rows := remaining })
    else (.ok (), { st with rows := remaining })

/-- `userRepository.GetByEmail`: SELECT by email; `sql.ErrNoRows`
becomes the distinct message of `errUserNotFound`. -/
def GetByEmail (st : DBState) (email : String) : GoResult User × DBState :=
  match st.rows.find? (fun u => u.Email = email) with
  | some u => (.ok u, st)
  | none => (.error errUserNotFound, st)

/-- `userRepository.Count`: `SELECT COUNT(*) FROM users`. -/
def Count (st : DBState) : GoResult Int × DBState :=
  (.ok (st.rows.length : Int), st)

end userRepository

/-! ### The repository interface (`internal/repository/interfaces.go`).
The service is written against this interface, so the service layer is
parameterised by an arbitrary implementation over an abstract state. -/

structure UserRepository (σ : Type) where
  Create : σ → CreateUserRequest → GoResult User × σ
  GetByID : σ → Int → GoResult User × σ
  GetAll : σ → Int → Int → GoResult (List User) × σ
  Update : σ → Int → UpdateUserRequest → GoResult User × σ
  Delete : σ → Int → GoResult Unit × σ
  GetByEmail : σ → String → GoResult User × σ
  Count : σ → GoResult Int × σ

/-- The SQL-backed repository (`NewUserRepository`). -/
def sqlRepository : UserRepository DBState where
  Create := userRepository.Create
  GetByID := userRepository.GetByID
  GetAll := userRepository.GetAll
  Update := userRepository.Update
  Delete := userRepository.Delete
  GetByEmail := userRepository.GetByEmail
  Count := userRepository.Count

/-! ### Service layer (`internal/services`, file part of `src/unnamed`),
written against the `UserRepository` interface exactly as the Go
`UserService` is -/

/-- `isValidEmail`: `strings.Contains(email, "@") && strings.Contains(email, ".")`. -/
def isValidEmail (email : String) : Bool :=
  containsChar email ('@') && containsChar email ('.')

/-- `UserService.validateCreateUserRequest`. -/
def validateCreateUserRequest (req : CreateUserRequest) : GoResult Unit :=
  if trimSpace req.Name = ("") then .error errNameRequired
  else if strLen req.Name < 2 || strLen req.Name > 100 then .error errNameLength
  else if trimSpace req.Email = ("") then .error errEmailRequired
  else if !(isValidEmail req.Email) then .error errEmailFormat
  else if req.Age ≤ 0 || req.Age > 150 then .error errAgeRange
  else .ok ()

/-- `UserService.validateUpdateUserRequest`: validates only provided fields. -/
def validateUpdateUserRequest (req : UpdateUserRequest) : GoResult Unit :=
  if req.Name ≠ ("") && (strLen req.Name < 2 || strLen req.Name > 100) then
    .error errNameLength
  else if req.Email ≠ ("") && !(isValidEmail req.Email) then
    .error errEmailFormat
  else if req.Age ≠ 0 && (req.Age ≤ 0 || req.Age > 150) then
    .error errAgeRange
  else .ok ()

namespace UserService

variable {σ : Type}

/-- `UserService.CreateUser`: validate, pre-check the email with
`GetByEmail` (discarding its error: `existingUser, _ := ...` and a
conflict only when a user came back), then `Create`, wrapping a create
failure with operation context. -/
def CreateUser (repo : UserRepository σ) (st : σ) (req : CreateUserRequest) :
    GoResult User × σ :=
  match validateCreateUserRequest req with
  | .error e => (.error e, st)
  | .ok _ =>
    let pre := repo.GetByEmail st req.Email
    match pre.1 with
    | .ok _ => (.error (errEmailExists req.Email), pre.2)
    | .error _ =>
      match repo.Create pre.2 req with
      | (.error e, st2) => (.error ("failed to create user: " ++ e), st2)
      | (.ok u, st2) => (.ok u, st2)

/-- `UserService.GetUser`: reject non-positive ids, then `GetByID`,
propagating its error unchanged. -/
def GetUser (repo : UserRepository σ) (st : σ) (id : Int) : GoResult User × σ :=
  if id ≤ 0 then (.error errInvalidUserID, st)
  else repo.GetByID st id

/-- `UserService.GetUsers`: normalize page and limit, compute the
offset, fetch the page and the unfiltered total count. -/
def GetUsers (repo : UserRepository σ) (st : σ) (page limit : Int) :
    GoResult (List User × Int) × σ :=
  let page := if page < 1 then 1 else page
  let limit := if limit < 1 ∨ limit > 100 then 10 else limit
  let offset := (page - 1) * limit
  match repo.GetAll st limit offset with
  | (.error e, st2) => (.error ("failed to get users: " ++ e), st2)
  | (.ok users, st2) =>
    match repo.Count st2 with
    | (.error e, st3) => (.error ("failed to count users: " ++ e), st3)
    | (.ok total, st3) => (.ok (users, total), st3)

/-- `UserService.UpdateUser`: reject non-positive ids, validate the
provided fields, if an email is provided pre-check it against other
rows (discarding the pre-check error), then `Update`, wrapping an
update failure with operation context. -/
def UpdateUser (repo : UserRepository σ) (st : σ) (id : Int) (req : UpdateUserRequest) :
    GoResult User × σ :=
  if id ≤ 0 then (.error errInvalidUserID, st)
  else
    match validateUpdateUserRequest req with
    | .error e => (.error e, st)
    | .ok _ =>
      let stc : σ × Bool :=
        if req.Email ≠ ("") then
          let pre := repo.GetByEmail st req.Email
          match pre.1 with
          | .ok existing => (pre.2, existing.ID ≠ id)
          | .error _ => (pre.2, false)
        else (st, false)
      if stc.2 then (.error (errEmailExists req.Email), stc.1)
      else
        match repo.Update stc.1 id req with
        | (.error e, st2) => (.error ("failed to update user: " ++ e), st2)
        | (.ok u, st2) => (.ok u, st2)

/-- `UserService.DeleteUser`: reject non-positive ids, then `Delete`,
wrapping a delete failure with operation context. -/
def DeleteUser (repo : UserRepository σ) (st : σ) (id : Int) : GoResult Unit × σ :=
  if id ≤ 0 then (.error errInvalidUserID, st)
  else
    match repo.Delete st id with
    | (.error e, st2) => (.error ("failed to delete user: " ++ e), st2)
    | (.ok _, st2) => (.ok (), st2)

end UserService

/-! ### HTTP handlers (`internal/handlers`, file part of `src/unnamed`) -/

/-- The body of an HTTP response, keeping exactly the data the
handlers put into their envelopes. -/
inductive HandlerBody where
  | userData (u : User)
  | usersPage (users : List User) (total : Int) (page : Int) (limit : Int)
  | errorBody (msg : String)
  | emptyBody
deriving Repr, DecidableEq

/-- An HTTP response: status code plus envelope body. -/
structure HTTPResponse where
  status : Nat
  body : HandlerBody
deriving Repr, DecidableEq

def msgInvalidJSON : String := "Invalid JSON payload"

def msgInvalidUserID : String := "Invalid user ID"

def msgUserNotFound : String := "User not found"

namespace UserHandler

variable {σ : Type}

/-- `UserHandler.CreateUser` (POST /users): a body that failed JSON
decoding is `none`; any service error maps to 400, success to 201. -/
def CreateUser (repo : UserRepository σ) (st : σ) (body : Option CreateUserRequest) :
    HTTPResponse × σ :=
  match body with
  | none => (⟨400, .errorBody msgInvalidJSON⟩, st)
  | some req =>
    match UserService.CreateUser repo st req with
    | (.error e, st2) => (⟨400, .errorBody e⟩, st2)
    | (.ok u, st2) => (⟨201, .userData u⟩, st2)

/-- `UserHandler.GetUser` (GET /users/\x7bid\x7d): unparsable id maps
to 400; the error message `errUserNotFound` maps to 404; any other
error maps to 500. -/
def GetUser (repo : UserRepository σ) (st : σ) (idStr : String) : HTTPResponse × σ :=
  match Atoi idStr with
  | none => (⟨400, .errorBody msgInvalidUserID⟩, st)
  | some id =>
    match UserService.GetUser repo st id with
    | (.error e, st2) =>
      if e = errUserNotFound then (⟨404, .errorBody msgUserNotFound⟩, st2)
      else (⟨500, .errorBody e⟩, st2)
    | (.ok u, st2) => (⟨200, .userData u⟩, st2)

/-- `UserHandler.GetUsers` (GET /users): `page, _ := strconv.Atoi(...)`
leaves the Go zero value 0 on parse failure; the pagination metadata
echoes the raw `page` and `limit`, not the normalized ones. -/
def GetUsers (repo : UserRepository σ) (st : σ) (pageStr limitStr : String) :
    HTTPResponse × σ :=
  let page := (Atoi pageStr).getD 0
  let limit := (Atoi limitStr).getD 0
  match UserService.GetUsers repo st page limit with
  | (.error e, st2) => (⟨500, .errorBody e⟩, st2)
  | (.ok (users, total), st2) => (⟨200, .usersPage users total page limit⟩, st2)

/-- `UserHandler.UpdateUser` (PUT /users/\x7bid\x7d): unparsable id or
undecodable body map to 400; the error message `errUserNotFound` maps
to 404; any other error maps to 400. -/
def UpdateUser (repo : UserRepository σ) (st : σ) (idStr : String)
    (body : Option UpdateUserRequest) : HTTPResponse × σ :=
  match Atoi idStr with
  | none => (⟨400, .errorBody msgInvalidUserID⟩, st)
  | some id =>
    match body with
    | none => (⟨400, .errorBody msgInvalidJSON⟩, st)
    | some req =>
      match UserService.UpdateUser repo st id req with
      | (.error e, st2) =>
        if e = errUserNotFound then (⟨404, .errorBody msgUserNotFound⟩, st2)
        else (⟨400, .errorBody e⟩, st2)
      | (.ok u, st2) => (⟨200, .userData u⟩, st2)

/-- `UserHandler.DeleteUser` (DELETE /users/\x7bid\x7d): unparsable id
maps to 400; the error message `errUserNotFound` maps to 404; any
other error maps to 500. -/
def DeleteUser (repo : UserRepository σ) (st : σ) (idStr : String) : HTTPResponse × σ :=
  match Atoi idStr with
  | none => (⟨400, .errorBody msgInvalidUserID⟩, st)
  | some id =>
    match UserService.DeleteUser repo st id with
    | (.error e, st2) =>
      if e = errUserNotFound then (⟨404, .errorBody msgUserNotFound⟩, st2)
      else (⟨500, .errorBody e⟩, st2)
    | (.ok _, st2) => (⟨200, .emptyBody⟩, st2)

end UserHandler

/-! ### Shared helper definitions -/

/-- The page normalization performed at the top of `UserService.GetUsers`:
`if page < 1 { page = 1 }`. -/
def normPage (page : Int) : Int :=
  if page < 1 then 1 else page

/-- The limit normalization performed at the top of `UserService.GetUsers`:
`if limit < 1 || limit > 100 { limit = 10 }`. -/
def normLimit (limit : Int) : Int :=
  if limit < 1 ∨ limit > 100 then 10 else limit

instance : IsTotal User (fun a b => b.CreatedAt ≤ a.CreatedAt) :=
  ⟨fun a b => le_total b.CreatedAt a.CreatedAt⟩

instance : IsTrans User (fun a b => b.CreatedAt ≤ a.CreatedAt) :=
  ⟨fun _ _ _ h1 h2 => le_trans h2 h1⟩

/-- An empty users table, with the SERIAL id sequence at its initial
value 1 and an arbitrary current timestamp. -/
def emptyStore : DBState := ⟨[], 1, 0⟩

/-- A store holding one user, id 1, with the sequence at 2 and the
clock later than the stored timestamps. -/
def storeOne : DBState := ⟨[⟨1, "John Doe", "john@example.com", 30, 3, 3⟩], 2, 9⟩

/-- A store holding two users created at different times, with the
clock at 5. -/
def storeTwo : DBState :=
  ⟨[⟨1, "John Doe", "john@example.com", 20, 1, 1⟩,
    ⟨2, "Jane Roe", "jane@example.com", 30, 2, 2⟩], 3, 5⟩

/-- A repository test double (in the style of the unit tests' mock)
whose reads fail with a persistence error — the situation of a store
that went unreachable after startup. -/
def outageRepo : UserRepository Unit where
  Create := fun _ req => (.ok ⟨1, req.Name, req.Email, req.Age, 0, 0⟩, ())
  GetByID := fun _ _ => (.error ("connection refused"), ())
  GetAll := fun _ _ _ => (.error ("connection refused"), ())
  Update := fun _ _ _ => (.error ("connection refused"), ())
  Delete := fun _ _ => (.error ("connection refused"), ())
  GetByEmail := fun _ _ => (.error ("connection refused"), ())
  Count := fun _ => (.error ("connection refused"), ())

/-! ### Shared lemmas -/

/-- Characterization of a successful repository `Create`: the returned
row is fully determined, the new table is the old one with the row
appended, no prior row had the email, and the age passed the schema
check. -/
theorem create_ok {st st' : DBState} {req : CreateUserRequest} {u : User}
    (h : userRepository.Create st req = (.ok u, st')) :
    u = ⟨st.nextId, req.Name, req.Email, req.Age, st.now, st.now⟩ ∧
    st'.rows = st.rows ++ [u] ∧ st'.nextId = st.nextId + 1 ∧ st'.now = st.now ∧
    (∀ v ∈ st.rows, v.Email ≠ req.Email) ∧ ageCheck req.Age = true := by
  unfold userRepository.Create at h
  split_ifs at h with h1 h2
  · exact absurd (congrArg Prod.fst h) (by simp)
  · exact absurd (congrArg Prod.fst h) (by simp)
  · obtain ⟨hu, hst⟩ := Prod.mk.injEq .. ▸ h
    refine ⟨(Except.ok.injEq .. ▸ hu).symm, ?_, ?_, ?_, ?_, ?_⟩
    · rw [← hst]; exact ((Except.ok.injEq .. ▸ hu)) ▸ rfl
    · rw [← hst]
    · rw [← hst]
    · intro v hv hve
      exact h1 (List.any_eq_true.mpr ⟨v, hv, by simp [hve]⟩)
    · simpa using h2

/-- `userRepository.GetByEmail` is a pure read: the state is returned
unchanged. -/
theorem getByEmail_state (st : DBState) (email : String) :
    (userRepository.GetByEmail st email).2 = st := by
  unfold userRepository.GetByEmail
  rcases hf : st.rows.find? (fun u => u.Email = email) with _ | w <;> rw [hf]

/-- `userRepository.GetByID` is a pure read: the state is returned
unchanged. -/
theorem getByID_state (st : DBState) (id : Int) :
    (userRepository.GetByID st id).2 = st := by
  unfold userRepository.GetByID
  rcases hf : st.rows.find? (fun u => u.ID = id) with _ | w <;> rw [hf]

/-- Characterization of a successful `UserService.CreateUser` against
the SQL repository: validation passed and the repository `Create` on
the same state produced exactly this result. -/
theorem createUser_sql_ok {st st' : DBState} {req : CreateUserRequest} {u : User}
    (h : UserService.CreateUser sqlRepository st req = (.ok u, st')) :
    validateCreateUserRequest req = .ok () ∧
    userRepository.Create st req = (.ok u, st') := by
  unfold UserService.CreateUser at h
  rcases hv : validateCreateUserRequest req with e | v
  · rw [hv] at h
    exact absurd (congrArg Prod.fst h) (by simp)
  · rw [hv] at h
    simp only [sqlRepository] at h
    rcases hg : (userRepository.GetByEmail st req.Email).1 with e2 | w
    · rw [hg, getByEmail_state] at h
      rcases hc : userRepository.Create st req with ⟨cr | cu, cst⟩
      · rw [hc] at h
        exact absurd (congrArg Prod.fst h) (by simp)
      · rw [hc] at h
        obtain ⟨hu, hst⟩ := Prod.mk.injEq .. ▸ h
        refine ⟨rfl, ?_⟩
        rw [hu, hst]
    · rw [hg] at h
      exact absurd (congrArg Prod.fst h) (by simp)

/-- `UserService.GetUsers` against the SQL repository, in closed form:
the page is selected with the normalized limit and the offset
`(normPage page - 1) * normLimit limit`, the total is the unfiltered
row count, and the state is untouched. -/
theorem getUsers_sql_closed_form (st : DBState) (page limit : Int) :
    UserService.GetUsers sqlRepository st page limit =
      (.ok (selectUsersPage st (normLimit limit) ((normPage page - 1) * normLimit limit),
        (st.rows.length : Int)), st) := rfl

/-! ### Claims -/

/-- C1: at an id with no corresponding user (id 7 against an empty
store), the service's get/update/delete all surface a not-found
outcome rather than a generic one — but the update and delete
services wrap the repository's `errUserNotFound` message with
operation context, so the handlers' `err.Error() == "user not found"`
checks never match: PUT answers 400 and DELETE answers 500 instead of
the 404 the GET handler gives.  This refutes the claimed 404 mapping
for update and delete (and, for PUT, the claimed 500 mapping of
unanticipated failures, since every non-matching error maps to 400
there). -/
theorem handler_status_on_missing_id :
    (UserHandler.GetUser sqlRepository emptyStore ("7")).1.status = 404 ∧
    (userRepository.Update emptyStore 7 ⟨"", "", 31⟩).1 = .error errUserNotFound ∧
    (userRepository.Delete emptyStore 7).1 = .error errUserNotFound ∧
    (UserService.UpdateUser sqlRepository emptyStore 7 ⟨"", "", 31⟩).1 =
      .error ("failed to update user: " ++ errUserNotFound) ∧
    (UserService.DeleteUser sqlRepository emptyStore 7).1 =
      .error ("failed to delete user: " ++ errUserNotFound) ∧
    (UserHandler.UpdateUser sqlRepository emptyStore ("7") (some ⟨"", "", 31⟩)).1.status = 400 ∧
    (UserHandler.DeleteUser sqlRepository emptyStore ("7")).1.status = 500 :=
  ⟨rfl, rfl, rfl, rfl, rfl, rfl, rfl⟩

/-- C5: the service validation accepts age 150 (matching the
documented range 1–150 inclusive), but the persisted schema's
constraint `CHECK (age > 0 AND age < 150)` rejects 150, so inserting a
validated request with age 150 fails; age 149 is accepted by both. -/
theorem age150_validation_vs_schema :
    validateCreateUserRequest ⟨"John Doe", "john@example.com", 150⟩ = .ok () ∧
    ageCheck 150 = false ∧
    (userRepository.Create emptyStore ⟨"John Doe", "john@example.com", 150⟩).1 =
      .error ("failed to create user: " ++ errCheckViolation) ∧
    validateCreateUserRequest ⟨"John Doe", "john@example.com", 149⟩ = .ok () ∧
    ageCheck 149 = true ∧
    (userRepository.Create emptyStore ⟨"John Doe", "john@example.com", 149⟩).1 =
      .ok ⟨1, "John Doe", "john@example.com", 149, 0, 0⟩ :=
  ⟨rfl, rfl, rfl, rfl, rfl, rfl⟩

/-- C10: for every stored state and every raw `page` and `limit` query
strings, the list handler's pagination metadata echoes the raw parsed
values (`strconv.Atoi` result, 0 on parse failure) while the returned
page itself is computed from the normalized values. -/
theorem getUsers_handler_echoes_raw_pagination (st : DBState) (pageStr limitStr : String) :
    UserHandler.GetUsers sqlRepository st pageStr limitStr =
      (⟨200, .usersPage
        (selectUsersPage st (normLimit ((Atoi limitStr).getD 0))
          ((normPage ((Atoi pageStr).getD 0) - 1) * normLimit ((Atoi limitStr).getD 0)))
        (st.rows.length : Int)
        ((Atoi pageStr).getD 0) ((Atoi limitStr).getD 0)⟩, st) := rfl

/-- C4: the list operation normalizes a page below 1 to 1 and a limit
outside [1,100] to 10; with in-range parameters it returns the page
selected at offset `(page-1)*limit` together with the unfiltered total
row count, leaving the state unchanged. -/
theorem getUsers_normalizes_pagination (st : DBState) (page limit : Int) :
    (page < 1 → UserService.GetUsers sqlRepository st page limit
      = UserService.GetUsers sqlRepository st 1 limit) ∧
    ((limit < 1 ∨ 100 < limit) → UserService.GetUsers sqlRepository st page limit
      = UserService.GetUsers sqlRepository st page 10) ∧
    (1 ≤ page → 1 ≤ limit → limit ≤ 100 →
      UserService.GetUsers sqlRepository st page limit
        = (.ok (selectUsersPage st limit ((page - 1) * limit), (st.rows.length : Int)), st)) := by
  refine ⟨fun hp => ?_, fun hl => ?_, fun hp hl1 hl2 => ?_⟩
  · rw [getUsers_sql_closed_form, getUsers_sql_closed_form]
    have h : normPage page = normPage 1 := by
      unfold normPage
      rw [if_pos hp, if_neg (by omega)]
    rw [h]
  · rw [getUsers_sql_closed_form, getUsers_sql_closed_form]
    have h : normLimit limit = normLimit 10 := by
      unfold normLimit
      rw [if_pos (by omega), if_neg (by omega)]
    rw [h]
  · rw [getUsers_sql_closed_form]
    have h1 : normPage page = page := by
      unfold normPage
      rw [if_neg (by omega)]
    have h2 : normLimit limit = limit := by
      unfold normLimit
      rw [if_neg (by omega)]
    rw [h1, h2]

/-- Characterization of a successful repository `Update`: the returned
row is the overlay of the fetched row, and the table rewrites exactly
the row with that id. -/
theorem update_ok_overlay {st : DBState} {id : Int} {req : UpdateUserRequest}
    {u u' : User} {st' : DBState}
    (hcur : (userRepository.GetByID st id).1 = .ok u)
    (hok : userRepository.Update st id req = (.ok u', st')) :
    u' = applyUpdate u req st.now ∧
    st'.rows = st.rows.map (fun v => if v.ID = id then u' else v) ∧
    st'.nextId = st.nextId ∧ st'.now = st.now := by
  unfold userRepository.Update at hok
  rw [hcur] at hok
  simp only [] at hok
  split_ifs at hok with h1 h2
  · exact absurd (congrArg Prod.fst hok) (by simp)
  · exact absurd (congrArg Prod.fst hok) (by simp)
  · obtain ⟨hu, hst⟩ := Prod.mk.injEq .. ▸ hok
    have hu' : u' = applyUpdate u req st.now := (Except.ok.injEq .. ▸ hu).symm
    subst hu'
    exact ⟨rfl, by rw [← hst], by rw [← hst], by rw [← hst]⟩

/-- The overlay never touches `id` or `created_at`, and always stamps
`updated_at` with the given time. -/
theorem applyUpdate_frame (u : User) (req : UpdateUserRequest) (now : Int) :
    (applyUpdate u req now).ID = u.ID ∧
    (applyUpdate u req now).CreatedAt = u.CreatedAt ∧
    (applyUpdate u req now).UpdatedAt = now := by
  unfold applyUpdate
  split_ifs <;> exact ⟨rfl, rfl, rfl⟩

/-- Witness for C4 at page 0 (below 1) and limit 200 (above 100) on a
concrete store. -/
theorem getUsers_normalizes_pagination_witness :
    (UserService.GetUsers sqlRepository emptyStore 0 200
      = UserService.GetUsers sqlRepository emptyStore 1 200) ∧
    (UserService.GetUsers sqlRepository emptyStore 0 200
      = UserService.GetUsers sqlRepository emptyStore 0 10) ∧
    (UserService.GetUsers sqlRepository emptyStore 2 10
      = (.ok (selectUsersPage emptyStore 10 10, (0 : Int)), emptyStore)) :=
  ⟨(getUsers_normalizes_pagination emptyStore 0 200).1 (by decide),
   (getUsers_normalizes_pagination emptyStore 0 200).2.1 (by omega),
   (getUsers_normalizes_pagination emptyStore 2 10).2.2 (by decide) (by decide) (by decide)⟩

/-- C2: for an existing user and a partial update request, a
successful update keeps id and `created_at`, stamps `updated_at` with
the current time, rewrites exactly the row with that id, and when
exactly one field is provided it changes exactly that field while the
others retain their prior values. -/
theorem update_single_field_frame (st : DBState) (id : Int) (req : UpdateUserRequest)
    (u u' : User) (st' : DBState)
    (hcur : (userRepository.GetByID st id).1 = .ok u)
    (hok : userRepository.Update st id req = (.ok u', st')) :
    u'.ID = u.ID ∧ u'.CreatedAt = u.CreatedAt ∧ u'.UpdatedAt = st.now ∧
    st'.rows = st.rows.map (fun v => if v.ID = id then u' else v) ∧
    ((req.Name ≠ ("") ∧ req.Email = ("") ∧ req.Age = 0) →
      u'.Name = req.Name ∧ u'.Email = u.Email ∧ u'.Age = u.Age) ∧
    ((req.Name = ("") ∧ req.Email ≠ ("") ∧ req.Age = 0) →
      u'.Email = req.Email ∧ u'.Name = u.Name ∧ u'.Age = u.Age) ∧
    ((req.Name = ("") ∧ req.Email = ("") ∧ req.Age ≠ 0) →
      u'.Age = req.Age ∧ u'.Name = u.Name ∧ u'.Email = u.Email) := by
  obtain ⟨hu, hrows, -, -⟩ := update_ok_overlay hcur hok
  obtain ⟨hid, hcr, hup⟩ := applyUpdate_frame u req st.now
  subst hu
  refine ⟨hid, hcr, hup, hrows, fun ⟨h1, h2, h3⟩ => ?_, fun ⟨h1, h2, h3⟩ => ?_,
    fun ⟨h1, h2, h3⟩ => ?_⟩ <;>
    simp [applyUpdate, h1, h2, h3]

/-- Witness for C2: updating only the age of the stored user changes
the age, stamps `updated_at`, rewrites only that row, and leaves name
and email alone. -/
theorem update_single_field_frame_witness :
    (⟨1, "John Doe", "john@example.com", 31, 3, 9⟩ : User).ID = 1 ∧
    (⟨1, "John Doe", "john@example.com", 31, 3, 9⟩ : User).CreatedAt = 3 ∧
    (⟨1, "John Doe", "john@example.com", 31, 3, 9⟩ : User).UpdatedAt = storeOne.now ∧
    (⟨[⟨1, "John Doe", "john@example.com", 31, 3, 9⟩], 2, 9⟩ : DBState).rows =
      storeOne.rows.map (fun v =>
        if v.ID = 1 then (⟨1, "John Doe", "john@example.com", 31, 3, 9⟩ : User) else v) ∧
    ((⟨1, "John Doe", "john@example.com", 31, 3, 9⟩ : User).Age = 31 ∧
     (⟨1, "John Doe", "john@example.com", 31, 3, 9⟩ : User).Name = ("John Doe") ∧
     (⟨1, "John Doe", "john@example.com", 31, 3, 9⟩ : User).Email = ("john@example.com")) := by
  have h := update_single_field_frame storeOne 1 ⟨"", "", 31⟩
    ⟨1, "John Doe", "john@example.com", 30, 3, 3⟩
    ⟨1, "John Doe", "john@example.com", 31, 3, 9⟩
    ⟨[⟨1, "John Doe", "john@example.com", 31, 3, 9⟩], 2, 9⟩ rfl rfl
  exact ⟨h.1, h.2.1, h.2.2.1, h.2.2.2.1,
    h.2.2.2.2.2.2 ⟨rfl, rfl, by decide⟩⟩

/-- C6: a successful create followed by `GetByID` on the returned id
yields exactly the created row, whose name, email and age are the
request's fields (with the assigned id and timestamps). -/
theorem create_then_getByID_roundtrip (st st' : DBState) (req : CreateUserRequest) (u : User)
    (hwf : ∀ v ∈ st.rows, v.ID < st.nextId)
    (hval : validateCreateUserRequest req = .ok ())
    (hok : userRepository.Create st req = (.ok u, st')) :
    userRepository.GetByID st' u.ID = (.ok u, st') ∧
    u.Name = req.Name ∧ u.Email = req.Email ∧ u.Age = req.Age := by
  obtain ⟨hu, hrows, -, -, -, -⟩ := create_ok hok
  have hID : u.ID = st.nextId := by rw [hu]
  have hfind : st'.rows.find? (fun v => v.ID = u.ID) = some u := by
    rw [hrows, List.find?_append]
    have h1 : st.rows.find? (fun v => v.ID = u.ID) = none := by
      rw [List.find?_eq_none]
      intro x hx
      have hlt := hwf x hx
      simp only [decide_eq_true_eq]
      omega
    have h2 : List.find? (fun v => v.ID = u.ID) [u] = some u := by
      simp [List.find?]
    rw [h1, h2]
    rfl
  refine ⟨?_, by rw [hu], by rw [hu], by rw [hu]⟩
  unfold userRepository.GetByID
  rw [hfind]

/-- Witness for C6 on a concrete store: create then fetch returns the
created row with the request's fields. -/
theorem create_then_getByID_roundtrip_witness :
    userRepository.GetByID
        ⟨[⟨1, "John Doe", "john@example.com", 20, 1, 1⟩,
          ⟨2, "Jane Roe", "jane@example.com", 30, 2, 2⟩,
          ⟨3, "Mary Sue", "mary@example.com", 40, 5, 5⟩], 4, 5⟩
        (⟨3, "Mary Sue", "mary@example.com", 40, 5, 5⟩ : User).ID =
      (.ok ⟨3, "Mary Sue", "mary@example.com", 40, 5, 5⟩,
        ⟨[⟨1, "John Doe", "john@example.com", 20, 1, 1⟩,
          ⟨2, "Jane Roe", "jane@example.com", 30, 2, 2⟩,
          ⟨3, "Mary Sue", "mary@example.com", 40, 5, 5⟩], 4, 5⟩) ∧
    (⟨3, "Mary Sue", "mary@example.com", 40, 5, 5⟩ : User).Name = ("Mary Sue") ∧
    (⟨3, "Mary Sue", "mary@example.com", 40, 5, 5⟩ : User).Email = ("mary@example.com") ∧
    (⟨3, "Mary Sue", "mary@example.com", 40, 5, 5⟩ : User).Age = 40 :=
  create_then_getByID_roundtrip storeTwo
    ⟨[⟨1, "John Doe", "john@example.com", 20, 1, 1⟩,
      ⟨2, "Jane Roe", "jane@example.com", 30, 2, 2⟩,
      ⟨3, "Mary Sue", "mary@example.com", 40, 5, 5⟩], 4, 5⟩
    ⟨"Mary Sue", "mary@example.com", 40⟩
    ⟨3, "Mary Sue", "mary@example.com", 40, 5, 5⟩
    (by decide) rfl rfl

/-- C8: a successful create returns a row with a positive id (the
SERIAL sequence never goes below 1) and with `created_at` and
`updated_at` both set to the current time — in particular equal. -/
theorem create_positive_id_equal_timestamps (st st' : DBState) (req : CreateUserRequest)
    (u : User)
    (hseq : 1 ≤ st.nextId)
    (hval : validateCreateUserRequest req = .ok ())
    (hok : userRepository.Create st req = (.ok u, st')) :
    0 < u.ID ∧ u.CreatedAt = st.now ∧ u.UpdatedAt = st.now ∧ u.CreatedAt = u.UpdatedAt := by
  obtain ⟨hu, -, -, -, -, -⟩ := create_ok hok
  subst hu
  exact ⟨by simpa using hseq, rfl, rfl, rfl⟩

/-- Witness for C8: creating a user in the empty store yields id 1 and
equal timestamps. -/
theorem create_positive_id_equal_timestamps_witness :
    0 < (⟨1, "John Doe", "john@example.com", 30, 0, 0⟩ : User).ID ∧
    (⟨1, "John Doe", "john@example.com", 30, 0, 0⟩ : User).CreatedAt = emptyStore.now ∧
    (⟨1, "John Doe", "john@example.com", 30, 0, 0⟩ : User).UpdatedAt = emptyStore.now ∧
    (⟨1, "John Doe", "john@example.com", 30, 0, 0⟩ : User).CreatedAt =
      (⟨1, "John Doe", "john@example.com", 30, 0, 0⟩ : User).UpdatedAt :=
  create_positive_id_equal_timestamps emptyStore
    ⟨[⟨1, "John Doe", "john@example.com", 30, 0, 0⟩], 2, 0⟩
    ⟨"John Doe", "john@example.com", 30⟩
    ⟨1, "John Doe", "john@example.com", 30, 0, 0⟩
    (by decide) rfl rfl

/-- C7: for every limit and offset, the repository list operation
succeeds with the page of rows ordered by `created_at` descending, and
an offset past the row count yields the empty list rather than an
error. -/
theorem getAll_ordered_desc_empty_past_end (st : DBState) (limit offset : Int) :
    (userRepository.GetAll st limit offset).1 = .ok (selectUsersPage st limit offset) ∧
    List.Pairwise (fun a b : User => b.CreatedAt ≤ a.CreatedAt)
      (selectUsersPage st limit offset) ∧
    ((st.rows.length : Int) < offset → selectUsersPage st limit offset = []) := by
  refine ⟨rfl, ?_, fun hoff => ?_⟩
  · unfold selectUsersPage orderByCreatedAtDesc
    exact List.Pairwise.sublist ((List.take_sublist _ _).trans (List.drop_sublist _ _))
      (List.sorted_insertionSort _ st.rows)
  · unfold selectUsersPage
    have hlen : (orderByCreatedAtDesc st.rows).length ≤ offset.toNat := by
      unfold orderByCreatedAtDesc
      rw [List.length_insertionSort]
      omega
    rw [List.drop_eq_nil_of_le hlen, List.take_nil]

/-- Witness for C7 on a two-row store with offset 5 past the count. -/
theorem getAll_ordered_desc_empty_past_end_witness :
    (userRepository.GetAll storeTwo 10 5).1 = .ok (selectUsersPage storeTwo 10 5) ∧
    List.Pairwise (fun a b : User => b.CreatedAt ≤ a.CreatedAt)
      (selectUsersPage storeTwo 10 5) ∧
    selectUsersPage storeTwo 10 5 = [] :=
  ⟨(getAll_ordered_desc_empty_past_end storeTwo 10 5).1,
   (getAll_ordered_desc_empty_past_end storeTwo 10 5).2.1,
   (getAll_ordered_desc_empty_past_end storeTwo 10 5).2.2 (by decide)⟩

/-- C3: after a successful create, a second, sequential create with
the same email and otherwise valid fields fails with the conflict
error from the email pre-check, and leaves the state exactly as the
first creation left it. -/
theorem sequential_duplicate_create_conflict (st st1 : DBState)
    (req1 req2 : CreateUserRequest) (u1 : User)
    (h1 : UserService.CreateUser sqlRepository st req1 = (.ok u1, st1))
    (hval2 : validateCreateUserRequest req2 = .ok ())
    (hemail : req2.Email = req1.Email) :
    UserService.CreateUser sqlRepository st1 req2 =
      (.error (errEmailExists req2.Email), st1) := by
  obtain ⟨hval1, hrepo⟩ := createUser_sql_ok h1
  obtain ⟨hu, hrows, -, -, -, -⟩ := create_ok hrepo
  have hmem : ∃ v, v ∈ st1.rows ∧ (fun v : User => decide (v.Email = req2.Email)) v = true := by
    refine ⟨u1, ?_, ?_⟩
    · rw [hrows]
      exact List.mem_append_right _ (List.mem_singleton.mpr rfl)
    · simp only [decide_eq_true_eq]
      rw [hu, hemail]
  obtain ⟨w, hw⟩ := Option.isSome_iff_exists.mp (List.find?_isSome.mpr hmem)
  unfold UserService.CreateUser
  rw [hval2]
  simp only [sqlRepository]
  unfold userRepository.GetByEmail
  rw [hw]

/-- Witness for C3: a second create with a duplicate email on the
state left by a first, successful create is rejected with the
conflict message and leaves the state unchanged. -/
theorem sequential_duplicate_create_conflict_witness :
    UserService.CreateUser sqlRepository
        ⟨[⟨1, "John Doe", "john@example.com", 30, 0, 0⟩], 2, 0⟩
        ⟨"Jane Roe", "john@example.com", 25⟩ =
      (.error (errEmailExists ("john@example.com")),
       ⟨[⟨1, "John Doe", "john@example.com", 30, 0, 0⟩], 2, 0⟩) :=
  sequential_duplicate_create_conflict emptyStore
    ⟨[⟨1, "John Doe", "john@example.com", 30, 0, 0⟩], 2, 0⟩
    ⟨"John Doe", "john@example.com", 30⟩
    ⟨"Jane Roe", "john@example.com", 25⟩
    ⟨1, "John Doe", "john@example.com", 30, 0, 0⟩
    rfl rfl rfl

/-- C9: when the email pre-check inside `UserService.CreateUser` fails
with any error (`existingUser, _ := s.userRepo.GetByEmail(...)`), the
error is discarded and the outcome is exactly that of the attempted
insert — the pre-check failure is never surfaced. -/
theorem createUser_ignores_precheck_failure {σ : Type} (repo : UserRepository σ)
    (st : σ) (req : CreateUserRequest) (e : String)
    (hval : validateCreateUserRequest req = .ok ())
    (hpre : (repo.GetByEmail st req.Email).1 = .error e) :
    UserService.CreateUser repo st req =
      (match repo.Create (repo.GetByEmail st req.Email).2 req with
       | (.error e2, st2) => (.error ("failed to create user: " ++ e2), st2)
       | (.ok u, st2) => (.ok u, st2)) := by
  unfold UserService.CreateUser
  rw [hval]
  simp only [hpre]

/-- Witness for C9: against a repository whose email lookup fails with
a connection error, create proceeds to the insert and succeeds. -/
theorem createUser_ignores_precheck_failure_witness :
    UserService.CreateUser outageRepo () ⟨"John Doe", "john@example.com", 30⟩ =
      (match outageRepo.Create (outageRepo.GetByEmail () ("john@example.com")).2
          ⟨"John Doe", "john@example.com", 30⟩ with
       | (.error e2, st2) => (.error ("failed to create user: " ++ e2), st2)
       | (.ok u, st2) => (.ok u, st2)) :=
  createUser_ignores_precheck_failure outageRepo () ⟨"John Doe", "john@example.com", 30⟩
    ("connection refused") rfl rfl

end GoCrud
